import Mathlib

/-!
Verification development for the carpet analysis-form unrolled networks
(`src/carpet/lista_analysis.py` and `src/carpet/utils.py`).

Matrices are embedded as `Matrix (Fin m) (Fin n) ℚ` with the shapes used by
the source: the mixing operator `A` is `n_atoms × n_features` with
`n_atoms = k + 1`, the difference operator `D` is `(k+1) × k`, an observation
batch `x` is `n_samples × n_features`, the primal variable `u` is
`n_samples × (k+1)` and the dual variable `v` is `n_samples × k`.

External collaborators declared out of scope by the specification are opaque
parameters of the embedding: `pinv` stands for `torch.pinverse`, `ProxFn`
for the nested Prox-TV sub-network (`ListaLASSO`), `STFn` for
`pseudo_soft_th_tensor`, and the cached scalars `l_A`, `l_D` stand for the
squared spectral norms computed by `np.linalg.norm(., ord=2) ** 2`.
-/

namespace Carpet

/-- Rectangular rational matrix with `Fin` index types. -/
abbrev Mat (m n : ℕ) : Type := Matrix (Fin m) (Fin n) ℚ

/-- Embedding of `utils.v_to_u` (utils.py:10-29).  `pinv` is the external
`torch.pinverse` collaborator.  The optional arguments mirror the Python
signature; when both `inv_A` and `Psi_A` are absent they are computed from
`A` and `D`, and when `A` or `D` is also absent the source raises
`ValueError`.  The mixed case (exactly one of `inv_A`, `Psi_A` given)
crashes in the source because `None` has no transpose; it is embedded as an
error as well. -/
def v_to_u {ns nf k : ℕ} (pinv : Mat (k+1) nf → Mat nf (k+1))
    (v : Mat ns k) (x : Mat ns nf) (lbda : ℚ)
    (A : Option (Mat (k+1) nf)) (D : Option (Mat (k+1) k))
    (inv_A : Option (Mat nf (k+1))) (Psi_A : Option (Mat nf k)) :
    Except String (Mat ns (k+1)) :=
  if inv_A.isNone && Psi_A.isNone then
    match A, D with
    | some A0, some D0 =>
        let iA := pinv A0
        let Psi := iA * D0
        Except.ok ((x - lbda • (v * Psi.transpose)) * iA)
    | _, _ =>
        Except.error ("If inv_A and Psi_A are None, A and D should be given")
  else
    match inv_A, Psi_A with
    | some iA, some Psi =>
        Except.ok ((x - lbda • (v * Psi.transpose)) * iA)
    | _, _ =>
        Except.error ("one of inv_A and Psi_A is None")

/-- Embedding of `utils.init_vuz` (utils.py:32-53).  The default dual
variable is the zero matrix of shape `n_samples × (n_atoms - 1)`;
`u0` is computed through `v_to_u` with `A` and `D` given, and
`z0 = concat(u0[:, 0], u0 @ D)` along the atom axis.  The `force_numpy`
flag of the source only changes the container type of the returned arrays,
not their values, so it is not represented. -/
def init_vuz {ns nf k : ℕ} (pinv : Mat (k+1) nf → Mat nf (k+1))
    (A : Mat (k+1) nf) (D : Mat (k+1) k) (x : Mat ns nf) (lbda : ℚ)
    (v0 : Option (Mat ns k)) :
    Except String (Mat ns k × Mat ns (k+1) × Mat ns (k+1)) := do
  let v0' := v0.getD 0
  let u0 ← v_to_u pinv v0' x lbda (some A) (some D) none none
  let z0 : Mat ns (k+1) :=
    Matrix.of fun i => Fin.cons (u0 i 0) (fun j => (u0 * D) i j)
  return (v0', u0, z0)

/-- Primal variable exactly as the specification words it:
`u = (x − λ·v·Ψᵗ)·A⁻¹` with `Ψ = A⁻¹·D`, `A⁻¹` the pseudo-inverse. -/
def primal_of_dual_claim {ns nf k : ℕ} (inv_A : Mat nf (k+1))
    (D : Mat (k+1) k) (x : Mat ns nf) (lbda : ℚ) (v : Mat ns k) :
    Mat ns (k+1) :=
  (x - lbda • (v * (inv_A * D).transpose)) * inv_A

/-- Synthesis variable exactly as the specification words it:
`z = concat(u[:,0], u·D)` along the atom axis. -/
def synthesis_claim {ns k : ℕ} (D : Mat (k+1) k) (u : Mat ns (k+1)) :
    Mat ns (k+1) :=
  Matrix.of fun i => Fin.cons (u i 0) (fun j => (u * D) i j)

/-- C1: for every dual variable `v0` (defaulting to zero when not supplied),
observation batch `x`, regularization weight `lbda` and operators `A`, `D`,
the initializer returns the triple `(v, u, z)` with
`u = (x − λ·v·Ψᵗ)·A⁻¹`, `Ψ = A⁻¹·D` (`A⁻¹` the pseudo-inverse collaborator
applied to `A`) and `z = concat(u[:,0], u·D)`. -/
theorem init_vuz_closed_form {ns nf k : ℕ}
    (pinv : Mat (k+1) nf → Mat nf (k+1))
    (A : Mat (k+1) nf) (D : Mat (k+1) k) (x : Mat ns nf) (lbda : ℚ)
    (v0 : Option (Mat ns k)) :
    init_vuz pinv A D x lbda v0 =
      Except.ok (v0.getD 0,
        primal_of_dual_claim (pinv A) D x lbda (v0.getD 0),
        synthesis_claim D
          (primal_of_dual_claim (pinv A) D x lbda (v0.getD 0))) := by
  rfl

/-! Python call binding.  The forward passes of all five variants call
`init_vuz`; whether such a call even reaches the function body is decided by
Python's argument-binding rules, which we embed: positional arguments bind to
the leading parameters, a keyword naming no declared parameter raises
`TypeError`, and a parameter without a default that is bound neither
positionally nor by keyword raises `TypeError`. -/

/-- One parameter of a Python function signature. -/
structure PyParam where
  name : String
  hasDefault : Bool
deriving DecidableEq

/-- A Python call shape: how many positional arguments are passed and which
keyword names are used. -/
structure PyCall where
  nPos : ℕ
  kwargs : List String
deriving DecidableEq

/-- Outcome of binding a call against a signature. -/
inductive BindResult where
  | ok
  | unexpectedKeyword (kw : String)
  | missingArgument (nm : String)
deriving DecidableEq

/-- Names of the declared parameters. -/
def paramNames (ps : List PyParam) : List String := ps.map PyParam.name

/-- Parameters that receive a value in the call: the first `nPos` ones
positionally, plus those named by keyword. -/
def boundNames (ps : List PyParam) (c : PyCall) : List String :=
  (ps.take c.nPos).map PyParam.name ++ c.kwargs

/-- Python argument binding: first reject a keyword that names no declared
parameter, then reject a missing required argument; otherwise the body of the
function runs. -/
def pyBind (ps : List PyParam) (c : PyCall) : BindResult :=
  match c.kwargs.find? (fun kw => !(paramNames ps).contains kw) with
  | some kw => BindResult.unexpectedKeyword kw
  | none =>
    match (ps.filter (fun p => !p.hasDefault)).find?
        (fun p => !(boundNames ps c).contains p.name) with
    | some p => BindResult.missingArgument p.name
    | none => BindResult.ok

/-- Signature of `init_vuz` as written at utils.py:32:
`init_vuz(A, D, x, lbda, v0=None, device='cpu', force_numpy=False)`. -/
def init_vuz_sig : List PyParam :=
  [⟨"A", false⟩, ⟨"D", false⟩, ⟨"x", false⟩, ⟨"lbda", false⟩,
   ⟨"v0", true⟩, ⟨"device", true⟩, ⟨"force_numpy", true⟩]

/-- Call shape of `init_vuz(self.A, self.D, x, inv_A=self.inv_A_,
device=self.device)` in `ListaTV.forward` (lista_analysis.py:153). -/
def listaTV_init_call : PyCall := ⟨3, ["inv_A", "device"]⟩

/-- Call shape of the `init_vuz` call in `LpgdTautString.forward`
(lista_analysis.py:225). -/
def lpgdTautString_init_call : PyCall := ⟨3, ["inv_A", "device"]⟩

/-- Call shape of the `init_vuz` call in `CoupledCondatVu.forward`
(lista_analysis.py:289). -/
def coupledCondatVu_init_call : PyCall := ⟨3, ["inv_A", "device"]⟩

/-- Call shape of the first `init_vuz` call in `StepCondatVu.forward`
(lista_analysis.py:364). -/
def stepCondatVu_init_call_fst : PyCall := ⟨3, ["inv_A", "device"]⟩

/-- Call shape of the second `init_vuz` call in `StepCondatVu.forward`
(lista_analysis.py:366): `init_vuz(self.A, self.D, x, device=self.device)`. -/
def stepCondatVu_init_call_snd : PyCall := ⟨3, ["device"]⟩

/-- Call shape of the `init_vuz` call in `StepSubGradTV.forward`
(lista_analysis.py:432). -/
def stepSubGradTV_init_call : PyCall := ⟨3, ["device"]⟩

/-- C2: every forward pass's `init_vuz` call leaves the required fourth
parameter `lbda` unbound, the four variants that pass `inv_A` use a keyword
the signature does not declare, and consequently the binding of each of the
six call sites fails (so no forward evaluation reaches a layer update, which
in every `forward` body only comes after this initialization call). -/
theorem forward_init_vuz_calls_fail :
    pyBind init_vuz_sig listaTV_init_call = BindResult.unexpectedKeyword ("inv_A")
    ∧ pyBind init_vuz_sig lpgdTautString_init_call = BindResult.unexpectedKeyword ("inv_A")
    ∧ pyBind init_vuz_sig coupledCondatVu_init_call = BindResult.unexpectedKeyword ("inv_A")
    ∧ pyBind init_vuz_sig stepCondatVu_init_call_fst = BindResult.unexpectedKeyword ("inv_A")
    ∧ pyBind init_vuz_sig stepCondatVu_init_call_snd = BindResult.missingArgument ("lbda")
    ∧ pyBind init_vuz_sig stepSubGradTV_init_call = BindResult.missingArgument ("lbda")
    ∧ (boundNames init_vuz_sig listaTV_init_call).contains ("lbda") = false
    ∧ (boundNames init_vuz_sig lpgdTautString_init_call).contains ("lbda") = false
    ∧ (boundNames init_vuz_sig coupledCondatVu_init_call).contains ("lbda") = false
    ∧ (boundNames init_vuz_sig stepCondatVu_init_call_fst).contains ("lbda") = false
    ∧ (boundNames init_vuz_sig stepCondatVu_init_call_snd).contains ("lbda") = false
    ∧ (boundNames init_vuz_sig stepSubGradTV_init_call).contains ("lbda") = false
    ∧ (paramNames init_vuz_sig).contains ("inv_A") = false := by
  exact ⟨rfl, rfl, rfl, rfl, rfl, rfl, rfl, rfl, rfl, rfl, rfl, rfl, rfl⟩

/-! ListaTV (lista_analysis.py:42-176). -/

/-- The recognized `learn_prox` values, in the order of
`ALL_LEARN_PROX = [LEARN_PROX_FALSE, LEARN_PROX_GLOBAL, LEARN_PROX_PER_LAYER]`
(lista_analysis.py:17-20). -/
def ALL_LEARN_PROX : List String := ["none", "global", "per-layer"]

/-- What `ListaTV.get_global_parameters` does for a given `learn_prox`
value: build one shared `ListaLASSO` prox network (registering its
parameters as trainable exactly when the mode is `global`), build one prox
network per layer, or raise `NotImplementedError` listing the allowed set. -/
inductive ProxSetup where
  | sharedProx (registered : Bool)
  | perLayerProx
  | raiseNotImplemented (allowed : List String)
deriving DecidableEq

/-- Embedding of the branch structure of `ListaTV.get_global_parameters`
(lista_analysis.py:76-112), which runs during construction: the first branch
accepts `learn_prox` in `(LEARN_PROX_GLOBAL, LEARN_PROX_FALSE)` and builds the
shared prox network, registering it for training only in the `global` case;
the second accepts `per-layer`; anything else raises `NotImplementedError`
mentioning `ALL_LEARN_PROX`. -/
def get_global_parameters_dispatch (learn_prox : String) : ProxSetup :=
  if learn_prox = "global" ∨ learn_prox = "none" then
    ProxSetup.sharedProx (learn_prox = "global")
  else if learn_prox = "per-layer" then
    ProxSetup.perLayerProx
  else
    ProxSetup.raiseNotImplemented ALL_LEARN_PROX

/-- The prox-learning mode of a constructed `ListaTV` network. -/
inductive LearnProx where
  | noneMode
  | globalMode
  | perLayer
deriving DecidableEq

/-- The nested Prox-TV sub-network collaborator, called as
`prox_tv(x=u, lbda=lbda * mul_lbda)` and returning a synthesis variable of
the same shape as `u`. -/
def ProxFn (ns k : ℕ) : Type := Mat ns (k+1) → ℚ → Mat ns (k+1)

/-- Parameters of one `ListaTV` layer: `Wu`, `Wx` and the optional learned
`threshold` (present exactly when `learn_th` holds,
lista_analysis.py:114-128). -/
structure ListaTVParams (nf k : ℕ) where
  Wu : Mat (k+1) (k+1)
  Wx : Mat nf (k+1)
  threshold : Option ℚ

/-- The pieces of a constructed `ListaTV` network that its forward pass
reads: the prox-learning mode, the shared prox instance, the per-layer prox
instances, and the cached Lipschitz scalar `l_`. -/
structure ListaTVNet (ns k : ℕ) where
  learn_prox : LearnProx
  shared_prox : ProxFn ns k
  layer_prox : ℕ → ProxFn ns k
  l_ : ℚ

/-- Cumulative sum along the atom axis, `torch.cumsum(z, dim=1)`. -/
def cumsum {ns n : ℕ} (z : Mat ns n) : Mat ns n :=
  Matrix.of fun i j => ∑ j' ∈ Finset.Iic j, z i j'

/-- Loop body of `ListaTV.forward` (lista_analysis.py:156-174):
`mul_lbda = layer_params.get('threshold', 1.0 / self.l_)`, the prox instance
is the layer's own in per-layer mode and the shared one otherwise, then
`u = u @ Wu + x @ Wx`, `z = prox_tv(x=u, lbda=lbda * mul_lbda)` and
`u = cumsum(z, dim=1)`. -/
def listaTV_layer {ns nf k : ℕ} (net : ListaTVNet ns k) (x : Mat ns nf)
    (lbda : ℚ) (layer_id : ℕ) (p : ListaTVParams nf k) (u : Mat ns (k+1)) :
    Mat ns (k+1) :=
  let mul_lbda := p.threshold.getD (1 / net.l_)
  let prox_tv :=
    if net.learn_prox = LearnProx.perLayer then net.layer_prox layer_id
    else net.shared_prox
  let u1 := u * p.Wu + x * p.Wx
  let z := prox_tv u1 (lbda * mul_lbda)
  cumsum z

/-- The layer loop of `ListaTV.forward`: fold the layer body over the first
`output_layer` layers, given as the list of `(layer_id, layer_params)`
pairs, starting from the initialized `u`. -/
def listaTV_forward_loop {ns nf k : ℕ} (net : ListaTVNet ns k)
    (x : Mat ns nf) (lbda : ℚ) (layers : List (ℕ × ListaTVParams nf k))
    (u0 : Mat ns (k+1)) : Mat ns (k+1) :=
  layers.foldl (fun u lp => listaTV_layer net x lbda lp.1 lp.2 u) u0

/-- The ListaTV layer transition exactly as the specification words it:
an affine step `u·Wu + x·Wx`, then `ProxTV(·, λ·threshold)` through the
layer's own prox instance in per-layer mode and the shared instance
otherwise, then a cumulative sum along the atom axis. -/
def listaTV_transition_claim {ns nf k : ℕ} (net : ListaTVNet ns k)
    (x : Mat ns nf) (lbda : ℚ) (layer_id : ℕ) (p : ListaTVParams nf k)
    (u : Mat ns (k+1)) : Mat ns (k+1) :=
  cumsum
    ((if net.learn_prox = LearnProx.perLayer then net.layer_prox layer_id
      else net.shared_prox)
      (u * p.Wu + x * p.Wx)
      (lbda * p.threshold.getD (1 / net.l_)))

/-! Condat-Vu variants (lista_analysis.py:244-391).  The scalars `l_A` and
`l_D` are the values cached at construction by
`self.l_A = np.linalg.norm(self.A, ord=2) ** 2` and
`self.l_D = np.linalg.norm(self.D, ord=2) ** 2`, i.e. the squared spectral
norms of `A` and `D`. -/

/-- The cached Lipschitz scalar as a function of the spectral norm it is
computed from: `np.linalg.norm(., ord=2) ** 2` (lista_analysis.py:265-266,
342-343). -/
def l_of_norm {α : Type} [Field α] (nrm : α) : α := nrm ^ 2

/-- The primal step size as both Condat-Vu variants compute it from the
cached scalars: `tau = 1.0 / (l_A / 2.0 + sigma * l_D ** 2)`
(lista_analysis.py:271, 373). -/
def condatVu_tau {α : Type} [Field α] (l_A l_D sigma : α) : α :=
  1 / (l_A / 2 + sigma * l_D ^ 2)

/-- The primal step size exactly as the specification words it:
`τ = 1/(‖A‖²/2 + σ·‖D‖²)` with `‖A‖` and `‖D‖` the spectral norms. -/
def claimed_condatVu_tau {α : Type} [Field α] (nrmA nrmD sigma : α) : α :=
  1 / (nrmA ^ 2 / 2 + sigma * nrmD ^ 2)

/-- The fixed relaxation parameter `self.rho = 1.0` of `CoupledCondatVu`
(lista_analysis.py:269). -/
def coupledCondatVu_rho : ℚ := 1

/-- The fixed dual step size `self.sigma = 0.5` of `CoupledCondatVu`
(lista_analysis.py:270). -/
def coupledCondatVu_sigma {α : Type} [Field α] : α := 1 / 2

/-- The primal step size computed once at `CoupledCondatVu` construction
(lista_analysis.py:271). -/
def coupledCondatVu_tau {α : Type} [Field α] (l_A l_D : α) : α :=
  condatVu_tau l_A l_D coupledCondatVu_sigma

/-- `torch.clamp(x, lo, hi)`. -/
def clamp {α : Type} [LinearOrder α] (x lo hi : α) : α := min (max x lo) hi

/-- The dual step size actually used by a `StepCondatVu` layer:
`sigma = torch.clamp(sigma, 0.5, 2.0)` applied to the stored learned value
(lista_analysis.py:372). -/
def stepCondatVu_used_sigma {α : Type} [LinearOrderedField α] (raw : α) : α :=
  clamp raw (1 / 2) 2

/-- The primal step size recomputed by every `StepCondatVu` layer from that
layer's clamped learned sigma (lista_analysis.py:372-373). -/
def stepCondatVu_tau {α : Type} [LinearOrderedField α] (l_A l_D raw : α) : α :=
  condatVu_tau l_A l_D (stepCondatVu_used_sigma raw)

/-- The fixed relaxation parameter `self.rho = 1.0` of `StepCondatVu`
(lista_analysis.py:346). -/
def stepCondatVu_rho : ℚ := 1

/-- The external `pseudo_soft_th_tensor` collaborator, called as
`st v lbda step`. -/
def STFn (ns k : ℕ) : Type := Mat ns k → ℚ → ℚ → Mat ns k

/-- Parameters of one `CoupledCondatVu` layer: the coupling matrix
`W_coupled` (initialized to `D`) and the optional learned `threshold`
(lista_analysis.py:278-282). -/
structure CondatVuParams (k : ℕ) where
  W_coupled : Mat (k+1) k
  threshold : Option ℚ

/-- Loop body of `CoupledCondatVu.forward` (lista_analysis.py:293-316),
acting on the pair `(u_old, v_old)`:
`mul_lbda = layer_params.get('threshold', 1.0)`, primal descent
`u_new = u_old + (- tau * (u_old @ A - x) @ A.T - tau * v_old @ W.T)`,
dual ascent `v_ = v_old + sigma * (2 * u_new - u_old) @ W` and
`v_new = v_ - sigma * st(v_ / sigma, lbda * mul_lbda, 1 / sigma)`, then the
relaxed update, and the result pair replaces `(u_old, v_old)`. -/
def coupledCondatVu_layer {ns nf k : ℕ} (A : Mat (k+1) nf) (st : STFn ns k)
    (sigma tau rho : ℚ) (x : Mat ns nf) (lbda : ℚ) (p : CondatVuParams k)
    (s : Mat ns (k+1) × Mat ns k) : Mat ns (k+1) × Mat ns k :=
  let u_old := s.1
  let v_old := s.2
  let mul_lbda := p.threshold.getD 1
  let u_new := u_old +
    (-(tau • ((u_old * A - x) * A.transpose)) -
      tau • (v_old * p.W_coupled.transpose))
  let v_mid := v_old + sigma • (((2 : ℚ) • u_new - u_old) * p.W_coupled)
  let v_new := v_mid -
    sigma • st ((1 / sigma) • v_mid) (lbda * mul_lbda) (1 / sigma)
  let u := rho • u_new + (1 - rho) • u_old
  let v := rho • v_new + (1 - rho) • v_old
  (u, v)

/-- The layer loop of `CoupledCondatVu.forward`, with the construction-time
step sizes `sigma = 0.5`, `tau = condatVu_tau l_A l_D sigma`, `rho = 1.0`,
folded over the per-layer parameters from the initial `(u, v)` pair. -/
def coupledCondatVu_forward {ns nf k : ℕ} (A : Mat (k+1) nf) (st : STFn ns k)
    (l_A l_D : ℚ) (x : Mat ns nf) (lbda : ℚ) (layers : List (CondatVuParams k))
    (s0 : Mat ns (k+1) × Mat ns k) : Mat ns (k+1) × Mat ns k :=
  layers.foldl
    (fun s p =>
      coupledCondatVu_layer A st coupledCondatVu_sigma
        (coupledCondatVu_tau l_A l_D) coupledCondatVu_rho x lbda p s)
    s0

/-- The Coupled Condat-Vu layer exactly as the specification words it, for a
layer's coupling matrix `W` and threshold multiplier `th`:
`u_new = u_old − τ·(u_old·A − x)·Aᵗ − τ·v_old·Wᵗ`,
`v_ = v_old + σ·(2·u_new − u_old)·W`,
`v_new = v_ − σ·SoftThreshold(v_/σ, λ·th, 1/σ)`, then
`u = ρ·u_new + (1−ρ)·u_old` and `v = ρ·v_new + (1−ρ)·v_old`. -/
def coupledCondatVu_step_claim {ns nf k : ℕ} (A : Mat (k+1) nf)
    (st : STFn ns k) (sigma tau rho : ℚ) (x : Mat ns nf) (lbda : ℚ)
    (W : Mat (k+1) k) (th : ℚ) (s : Mat ns (k+1) × Mat ns k) :
    Mat ns (k+1) × Mat ns k :=
  let u_old := s.1
  let v_old := s.2
  let u_new := u_old - tau • ((u_old * A - x) * A.transpose) -
    tau • (v_old * W.transpose)
  let v_mid := v_old + sigma • (((2 : ℚ) • u_new - u_old) * W)
  let v_new := v_mid - sigma • st ((1 / sigma) • v_mid) (lbda * th) (1 / sigma)
  (rho • u_new + (1 - rho) • u_old, rho • v_new + (1 - rho) • v_old)

/-- The single per-layer parameter dictionary of `StepCondatVu`:
`dict(sigma=np.array(.5))` (lista_analysis.py:356-357). -/
def stepCondatVu_initial_layer_parameters : List (String × ℚ) :=
  [("sigma", 1 / 2)]

/-- Loop body of `StepCondatVu.forward` (lista_analysis.py:368-389): the
learned sigma is clamped to `[0.5, 2.0]`, `tau` is recomputed from it, the
coupling operator is the fixed `D`, and the soft-thresholding uses `lbda`
directly (no learned threshold). -/
def stepCondatVu_layer {ns nf k : ℕ} (A : Mat (k+1) nf) (D : Mat (k+1) k)
    (st : STFn ns k) (l_A l_D : ℚ) (x : Mat ns nf) (lbda : ℚ)
    (sigma_raw : ℚ) (s : Mat ns (k+1) × Mat ns k) :
    Mat ns (k+1) × Mat ns k :=
  let sigma := stepCondatVu_used_sigma sigma_raw
  let tau := condatVu_tau l_A l_D sigma
  let rho := stepCondatVu_rho
  let u_old := s.1
  let v_old := s.2
  let u_new := u_old +
    (-(tau • ((u_old * A - x) * A.transpose)) - tau • (v_old * D.transpose))
  let v_mid := v_old + sigma • (((2 : ℚ) • u_new - u_old) * D)
  let v_new := v_mid - sigma • st ((1 / sigma) • v_mid) lbda (1 / sigma)
  (rho • u_new + (1 - rho) • u_old, rho • v_new + (1 - rho) • v_old)

/-! StepSubGradTV (lista_analysis.py:394-445). -/

/-- Elementwise sign with `torch.sign` semantics (`sign 0 = 0`). -/
def ratSign (q : ℚ) : ℚ := if 0 < q then 1 else if q < 0 then -1 else 0

/-- Elementwise sign of a matrix, `torch.sign`. -/
def matSign {m n : ℕ} (M : Mat m n) : Mat m n :=
  Matrix.of fun i j => ratSign (M i j)

/-- The single per-layer parameter dictionary of `StepSubGradTV`:
`dict(step_size=np.array(1e-10))` (lista_analysis.py:423-425). -/
def stepSubGradTV_initial_layer_parameters : List (String × ℚ) :=
  [("step_size", 1 / 10 ^ 10)]

/-- Loop body of `StepSubGradTV.forward` (lista_analysis.py:434-443):
`residual = (u @ A - x) @ A.T`, `reg = sign(u @ D) @ D.T`,
`grad = residual + lbda * reg`, `u = u - step_size * grad`. -/
def stepSubGradTV_layer {ns nf k : ℕ} (A : Mat (k+1) nf) (D : Mat (k+1) k)
    (x : Mat ns nf) (lbda step_size : ℚ) (u : Mat ns (k+1)) :
    Mat ns (k+1) :=
  let residual := (u * A - x) * A.transpose
  let reg := matSign (u * D) * D.transpose
  let grad := residual + lbda • reg
  u - step_size • grad

/-- The layer loop of `StepSubGradTV.forward`, folded over the per-layer
step sizes. -/
def stepSubGradTV_forward {ns nf k : ℕ} (A : Mat (k+1) nf) (D : Mat (k+1) k)
    (x : Mat ns nf) (lbda : ℚ) (steps : List ℚ) (u0 : Mat ns (k+1)) :
    Mat ns (k+1) :=
  steps.foldl (fun u s => stepSubGradTV_layer A D x lbda s u) u0

/-- The sub-gradient step exactly as the specification words it:
`u ← u − step_size·[(u·A − x)·Aᵗ + λ·sign(u·D)·Dᵗ]`. -/
def stepSubGradTV_step_claim {ns nf k : ℕ} (A : Mat (k+1) nf)
    (D : Mat (k+1) k) (x : Mat ns nf) (lbda step_size : ℚ)
    (u : Mat ns (k+1)) : Mat ns (k+1) :=
  u - step_size • ((u * A - x) * A.transpose +
    lbda • (matSign (u * D) * D.transpose))

/-! Construction-time `learn_th` handling of the two step variants
(lista_analysis.py:348-354 and 415-421): when `learn_th` is requested a
notice is printed, and the base class always receives `learn_th=False`;
construction never fails on this account. -/

/-- Embedding of the `learn_th` handling in `StepCondatVu.__init__`: the
result is `(notice_emitted, learn_th_forwarded_to_base)`, and the
construction step succeeds for both requested values. -/
def stepCondatVu_learn_th_setup (requested : Bool) :
    Except String (Bool × Bool) :=
  Except.ok (requested, false)

/-- Embedding of the `learn_th` handling in `StepSubGradTV.__init__`, with
the same notice-and-override behaviour. -/
def stepSubGradTV_learn_th_setup (requested : Bool) :
    Except String (Bool × Bool) :=
  Except.ok (requested, false)

/-- The difference operator built by every variant's constructor:
`D = (np.eye(n_atoms, k=-1) - np.eye(n_atoms, k=0))[:, :-1]`
(lista_analysis.py:62 etc.), with `n_atoms = k + 1`. -/
def D_source (k : ℕ) : Mat (k+1) k :=
  Matrix.of fun i j =>
    (if (i : ℕ) = (j : ℕ) + 1 then 1 else 0) -
      (if (i : ℕ) = (j : ℕ) then 1 else 0)

/-- For `n_atoms = 2` the Gram matrix of `D` is the 1×1 matrix `(2)`, so the
squared spectral norm of `D` is exactly `2` and its spectral norm is `√2`.
This realizes the scalar inputs used below against an actual constructed
network. -/
theorem D_source_gram_two :
    (D_source 1).transpose * D_source 1 = Matrix.of fun _ _ => (2 : ℚ) := by
  ext i j
  fin_cases i
  fin_cases j
  simp [D_source, Matrix.mul_apply, Fin.sum_univ_succ]
  norm_num

/-- Helper: a sub-gradient layer with step size zero is the identity. -/
theorem stepSubGradTV_layer_zero_step {ns nf k : ℕ} (A : Mat (k+1) nf)
    (D : Mat (k+1) k) (x : Mat ns nf) (lbda : ℚ) (u : Mat ns (k+1)) :
    stepSubGradTV_layer A D x lbda 0 u = u := by
  simp [stepSubGradTV_layer]

/-- Helper: folding any number of zero-step sub-gradient layers is the
identity. -/
theorem stepSubGradTV_forward_zero_steps {ns nf k : ℕ} (A : Mat (k+1) nf)
    (D : Mat (k+1) k) (x : Mat ns nf) (lbda : ℚ) (n : ℕ)
    (u0 : Mat ns (k+1)) :
    stepSubGradTV_forward A D x lbda (List.replicate n 0) u0 = u0 := by
  induction n generalizing u0 with
  | zero => rfl
  | succ n ih =>
      simp only [List.replicate_succ, stepSubGradTV_forward, List.foldl_cons]
      rw [stepSubGradTV_layer_zero_step]
      exact ih u0

/-- C3 counterexample: at a constructible network with `n_atoms = 2`
(`‖A‖ = 1`, e.g. `A` the 2×2 identity, and `‖D‖ = √2` by
`D_source_gram_two`), the step size the code computes from its cached
squared norms differs from the specification's `1/(‖A‖²/2 + σ‖D‖²)`:
the code yields `2/5` while the claimed formula yields `2/3`. -/
theorem condatVu_tau_formula_counterexample :
    condatVu_tau (l_of_norm (1 : ℝ)) (l_of_norm (Real.sqrt 2))
        coupledCondatVu_sigma ≠
      claimed_condatVu_tau (1 : ℝ) (Real.sqrt 2) coupledCondatVu_sigma := by
  have h2 : Real.sqrt 2 ^ 2 = 2 := Real.sq_sqrt (by norm_num)
  simp only [condatVu_tau, claimed_condatVu_tau, l_of_norm,
    coupledCondatVu_sigma, h2]
  norm_num

/-- C3 amended: in both Condat-Vu variants the primal step size is
`τ = 1/(‖A‖²/2 + σ·‖D‖⁴)` (the code multiplies σ by the square of the
cached squared spectral norm `l_D = ‖D‖²`): `CoupledCondatVu` computes it
once at construction with fixed `σ = 0.5`, and `StepCondatVu` recomputes it
per layer from that layer's clamped learned σ. -/
theorem condatVu_tau_formula (nrmA nrmD sigma_raw : ℝ) :
    coupledCondatVu_tau (l_of_norm nrmA) (l_of_norm nrmD) =
        1 / (nrmA ^ 2 / 2 + (1 / 2) * nrmD ^ 4)
    ∧ stepCondatVu_tau (l_of_norm nrmA) (l_of_norm nrmD) sigma_raw =
        1 / (nrmA ^ 2 / 2 + stepCondatVu_used_sigma sigma_raw * nrmD ^ 4) := by
  constructor
  · simp only [coupledCondatVu_tau, condatVu_tau, l_of_norm,
      coupledCondatVu_sigma]
    ring_nf
  · simp only [stepCondatVu_tau, condatVu_tau, l_of_norm]
    ring_nf

/-- C4 counterexample: `learn_prox = 'none'` is taken by the accepting
branch of `ListaTV.get_global_parameters` (it builds the shared,
non-registered prox network — indeed `'none'` is the constructor's default
value), so construction does not fail with the unimplemented-mode
condition. -/
theorem learn_prox_none_is_accepted :
    get_global_parameters_dispatch ("none") = ProxSetup.sharedProx false
    ∧ get_global_parameters_dispatch ("none") ≠
        ProxSetup.raiseNotImplemented ALL_LEARN_PROX := by
  exact ⟨rfl, by decide⟩

/-- C4 amended: constructing ListaTV with `learn_prox = 'none'` succeeds,
building the shared prox network without registering its parameters
(`'global'` registers them, `'per-layer'` builds one per layer), and any
`learn_prox` value outside the recognized set raises an unimplemented-mode
failure listing the allowed set. -/
theorem learn_prox_dispatch (s : String) :
    get_global_parameters_dispatch ("none") = ProxSetup.sharedProx false
    ∧ get_global_parameters_dispatch ("global") = ProxSetup.sharedProx true
    ∧ get_global_parameters_dispatch ("per-layer") = ProxSetup.perLayerProx
    ∧ (s ∉ ALL_LEARN_PROX →
        get_global_parameters_dispatch s =
          ProxSetup.raiseNotImplemented ALL_LEARN_PROX) := by
  refine ⟨rfl, rfl, rfl, fun hs => ?_⟩
  simp only [ALL_LEARN_PROX, List.mem_cons, List.not_mem_nil, or_false,
    not_or] at hs
  unfold get_global_parameters_dispatch
  rw [if_neg (by tauto), if_neg hs.2.2]

/-- Witness for C4's amended theorem at the concrete value `'bogus'`. -/
theorem learn_prox_dispatch_witness :
    get_global_parameters_dispatch ("bogus") =
      ProxSetup.raiseNotImplemented ALL_LEARN_PROX :=
  (learn_prox_dispatch ("bogus")).2.2.2 (by decide)

/-- C5: the claim is right about the intended behaviour — the layer loop of
`ListaTV.forward` run for `output_layer = 0` layers leaves the initial `u`
untouched — but the code's `init_vuz` call fails to bind (undeclared
keyword `inv_A`, unbound required `lbda`), so `forward` raises before it
can return the initializer's `u`. -/
theorem forward_zero_layers_blocked :
    pyBind init_vuz_sig listaTV_init_call =
        BindResult.unexpectedKeyword ("inv_A")
    ∧ ∀ {ns nf k : ℕ} (net : ListaTVNet ns k) (x : Mat ns nf) (lbda : ℚ)
        (u0 : Mat ns (k+1)),
        listaTV_forward_loop net x lbda [] u0 = u0 := by
  exact ⟨rfl, fun _ _ _ _ => rfl⟩

/-- C6: each ListaTV layer transition, for every primal state `u` and input
`(x, λ)`, is exactly `u ← u·Wu + x·Wx`, then `z ← ProxTV(u, λ·threshold)`
through the layer's own prox instance in per-layer mode and the shared
instance otherwise, then `u ← cumsum z` along the atom axis. -/
theorem listaTV_layer_transition {ns nf k : ℕ} (net : ListaTVNet ns k)
    (x : Mat ns nf) (lbda : ℚ) (layer_id : ℕ) (p : ListaTVParams nf k)
    (u : Mat ns (k+1)) :
    listaTV_layer net x lbda layer_id p u =
      listaTV_transition_claim net x lbda layer_id p u := rfl

/-- C7: each CoupledCondatVu layer computes exactly the claimed primal
descent, dual ascent with soft-thresholding, and relaxed update, with the
layer's coupling matrix `W_coupled` and threshold multiplier
(defaulting to 1), and the forward loop feeds each layer's output pair
`(u, v)` to the next layer as its `(u_old, v_old)`. -/
theorem coupledCondatVu_layer_update {ns nf k : ℕ} (A : Mat (k+1) nf)
    (st : STFn ns k) (sigma tau rho : ℚ) (x : Mat ns nf) (lbda : ℚ)
    (p : CondatVuParams k) (l_A l_D : ℚ) (layers : List (CondatVuParams k))
    (s : Mat ns (k+1) × Mat ns k) :
    coupledCondatVu_layer A st sigma tau rho x lbda p s =
      coupledCondatVu_step_claim A st sigma tau rho x lbda p.W_coupled
        (p.threshold.getD 1) s
    ∧ coupledCondatVu_forward A st l_A l_D x lbda (layers ++ [p]) s =
        coupledCondatVu_layer A st coupledCondatVu_sigma
          (coupledCondatVu_tau l_A l_D) coupledCondatVu_rho x lbda p
          (coupledCondatVu_forward A st l_A l_D x lbda layers s) := by
  constructor
  · simp only [coupledCondatVu_layer, coupledCondatVu_step_claim]
    have h : s.1 +
        (-(tau • ((s.1 * A - x) * A.transpose)) -
          tau • (s.2 * p.W_coupled.transpose)) =
        s.1 - tau • ((s.1 * A - x) * A.transpose) -
          tau • (s.2 * p.W_coupled.transpose) := by
      abel
    rw [h]
  · simp only [coupledCondatVu_forward, List.foldl_append, List.foldl_cons,
      List.foldl_nil]

/-- C8: the dual step size a StepCondatVu layer actually uses is the stored
value clamped to `[0.5, 2.0]`: it always lies in that interval, any raw
value outside the interval is replaced by the nearest bound (raw `10`
becomes `2`), and the stored value is initialized to `0.5`. -/
theorem stepCondatVu_sigma_clamped :
    (∀ raw : ℚ, 1 / 2 ≤ stepCondatVu_used_sigma raw ∧
      stepCondatVu_used_sigma raw ≤ 2)
    ∧ (∀ raw : ℚ, raw < 1 / 2 → stepCondatVu_used_sigma raw = 1 / 2)
    ∧ (∀ raw : ℚ, 2 < raw → stepCondatVu_used_sigma raw = 2)
    ∧ stepCondatVu_used_sigma (10 : ℚ) = 2
    ∧ stepCondatVu_initial_layer_parameters.lookup ("sigma") =
        some (1 / 2) := by
  refine ⟨fun raw => ⟨?_, ?_⟩, fun raw h => ?_, fun raw h => ?_, ?_, rfl⟩
  · exact le_min (le_max_right _ _) (by norm_num)
  · exact min_le_right _ _
  · simp only [stepCondatVu_used_sigma, clamp]
    rw [max_eq_right h.le, min_eq_left (by norm_num)]
  · simp only [stepCondatVu_used_sigma, clamp]
    rw [max_eq_left (le_trans (by norm_num) h.le), min_eq_right h.le]
  · simp only [stepCondatVu_used_sigma, clamp]
    rw [max_eq_left (by norm_num), min_eq_right (by norm_num)]

/-- Witness for C8 at the concrete raw values `0` and `10`. -/
theorem stepCondatVu_sigma_clamped_witness :
    stepCondatVu_used_sigma (0 : ℚ) = 1 / 2 ∧
      stepCondatVu_used_sigma (10 : ℚ) = 2 :=
  ⟨stepCondatVu_sigma_clamped.2.1 0 (by norm_num),
    stepCondatVu_sigma_clamped.2.2.1 10 (by norm_num)⟩

/-- C9: each StepSubGradTV layer performs exactly
`u ← u − step_size·[(u·A − x)·Aᵗ + λ·sign(u·D)·Dᵗ]`; with `step_size = 0`
a layer — and hence any number of layers — leaves `u` unchanged; and the
learned step size is initialized to `1e-10`. -/
theorem stepSubGradTV_transition {ns nf k : ℕ} (A : Mat (k+1) nf)
    (D : Mat (k+1) k) (x : Mat ns nf) (lbda step_size : ℚ)
    (u : Mat ns (k+1)) (n : ℕ) (u0 : Mat ns (k+1)) :
    stepSubGradTV_layer A D x lbda step_size u =
      stepSubGradTV_step_claim A D x lbda step_size u
    ∧ stepSubGradTV_layer A D x lbda 0 u = u
    ∧ stepSubGradTV_forward A D x lbda (List.replicate n 0) u0 = u0
    ∧ stepSubGradTV_initial_layer_parameters.lookup ("step_size") =
        some (1 / 10 ^ 10) :=
  ⟨rfl, stepSubGradTV_layer_zero_step A D x lbda u,
    stepSubGradTV_forward_zero_steps A D x lbda n u0, rfl⟩

/-- C10: requesting `learn_th = True` on StepCondatVu or StepSubGradTV does
not fail: the constructor emits its notice exactly when the flag was
requested, always forwards `learn_th = False` to the base class, and the
per-layer parameter dictionaries of both variants contain no `threshold`
entry. -/
theorem learn_th_override (requested : Bool) :
    stepCondatVu_learn_th_setup requested = Except.ok (requested, false)
    ∧ stepSubGradTV_learn_th_setup requested = Except.ok (requested, false)
    ∧ stepCondatVu_initial_layer_parameters.lookup ("threshold") = none
    ∧ stepSubGradTV_initial_layer_parameters.lookup ("threshold") = none :=
  ⟨rfl, rfl, rfl, rfl⟩

end Carpet
